import Mathlib

/-!
Shallow embedding of the FTC EPA rating model (`src/main.py`).

Ratings are modelled as exact rationals (the source uses Python floats but the
specification speaks in real arithmetic); win probabilities, which use a real
logistic curve, live in `ℝ`.  The mutable global dictionary `epa_scores` is
modelled as an explicit store `Nat → Option ℚ` threaded through the update
functions, and the module-level `DEFAULT_EPA` as an explicit parameter, as
every rating read in the source is `epa_scores.get(team, DEFAULT_EPA)`.
-/

namespace EPA

/-- The store modelling the Python dict `epa_scores`: `none` means the team is
absent from the dictionary. -/
def Store : Type := Nat → Option ℚ

/-- The initial module-level constant `DEFAULT_EPA = 80` (`main.py` line 8). -/
def DEFAULT_EPA : ℚ := 80

/-- `epa_scores.get(team, default)`: the dictionary read with fallback used by
`update_epa` and `predict_match_result`. -/
def epa_get (store : Store) (default : ℚ) (team : Nat) : ℚ :=
  (store team).getD default

/-- The empty store: no team has been rated yet. -/
def emptyStore : Store := fun _ => none

/-- `calculate_k_factor` (`main.py` lines 33-39): K-factor as a function of the
1-indexed match number. -/
def calculate_k_factor (match_number : Nat) : ℚ :=
  if match_number ≤ 6 then 0.5
  else if match_number ≤ 12 then 0.5 - (1 / 30) * ((match_number : ℚ) - 6)
  else 0.3

/-- `calculate_margin_parameter` (`main.py` lines 41-47): margin parameter M as
a function of the 1-indexed match number. -/
def calculate_margin_parameter (match_number : Nat) : ℚ :=
  if match_number ≤ 12 then 0
  else if match_number ≤ 36 then ((match_number : ℚ) - 12) / 24
  else 1

/-- One loop iteration of `update_epa` (`main.py` lines 71-74 and 76-79): write
`old_epa + c` for the team, where `c = (k/(1+m)) * surprise / alliance size` is
the same for every team of the alliance (the surprise factor and the alliance
size do not depend on the loop variable). -/
def allianceStep (default c : ℚ) (s : Store) (team : Nat) : Store :=
  fun t => if t = team then some (epa_get s default team + c) else s t

/-- One alliance loop of `update_epa`: fold `allianceStep` over the alliance,
with the per-team increment computed from the own/opposing scores and the
pre-loop alliance totals. -/
def updateAlliance (store : Store) (default : ℚ) (teams : List Nat)
    (ownScore oppScore ownTotal oppTotal k m : ℚ) : Store :=
  teams.foldl
    (allianceStep default
      ((k / (1 + m)) * ((ownScore - ownTotal) - m * (oppScore - oppTotal)) /
        (teams.length : ℚ)))
    store

/-- Alliance total (`main.py` lines 67-68): `sum(epa_scores.get(team, DEFAULT_EPA)
for team in team_ids)`. -/
def allianceTotal (store : Store) (default : ℚ) (teams : List Nat) : ℚ :=
  (teams.map (epa_get store default)).sum

/-- `update_epa` (`main.py` lines 62-79): compute both alliance totals from the
pre-call store, then update every red team, then every blue team. -/
def update_epa (store : Store) (default : ℚ) (red_team_ids blue_team_ids : List Nat)
    (red_actual_score blue_actual_score k_factor margin : ℚ) : Store :=
  let red_total_epa := allianceTotal store default red_team_ids
  let blue_total_epa := allianceTotal store default blue_team_ids
  let s1 := updateAlliance store default red_team_ids
    red_actual_score blue_actual_score red_total_epa blue_total_epa k_factor margin
  updateAlliance s1 default blue_team_ids
    blue_actual_score red_actual_score blue_total_epa red_total_epa k_factor margin

/-- One slot of the `teams` array of a match record: a station tag such as
Red1 or Blue2, and a team number. -/
structure TeamSlot where
  station : String
  teamNumber : Nat
deriving DecidableEq

/-- A match record as consumed by the core (`main.py` lines 49-94, 186):
team slots, the two optional final scores, and an optional start timestamp
used only for ordering.  Python reads absent scores as 0 via
`match.get(key, 0)`; absent timestamps sort first. -/
structure MatchRec where
  teams : List TeamSlot
  scoreRedFinal : Option ℚ
  scoreBlueFinal : Option ℚ
  actualStartTime : Option Nat
deriving DecidableEq

/-- The red team list of `process_match` (`main.py` line 88): team numbers of
the slots whose station tag starts with Red, in order.  Python's
`str.startswith` is the character-sequence prefix test. -/
def red_team_ids (mt : MatchRec) : List Nat :=
  (mt.teams.filter (fun tm => "Red".data.isPrefixOf tm.station.data)).map
    (fun tm => tm.teamNumber)

/-- The blue team list of `process_match` (`main.py` line 89). -/
def blue_team_ids (mt : MatchRec) : List Nat :=
  (mt.teams.filter (fun tm => "Blue".data.isPrefixOf tm.station.data)).map
    (fun tm => tm.teamNumber)

/-- `calculate_default_epa` (`main.py` lines 49-60): total points of both
alliances over all matches divided by 4 slots per match, with fallback 60 for
an empty match list. -/
def calculate_default_epa (ms : List MatchRec) : ℚ :=
  let total_scores :=
    (ms.map (fun mt => mt.scoreRedFinal.getD 0 + mt.scoreBlueFinal.getD 0)).sum
  let total_teams : Nat := 4 * ms.length
  if 0 < total_teams then total_scores / (total_teams : ℚ) else 60

/-- `process_match` (`main.py` lines 81-94): compute the K-factor and margin
parameter from the match number, extract the alliances and scores (absent
scores read as 0), and run `update_epa`. -/
def process_match (store : Store) (default : ℚ) (mt : MatchRec)
    (match_number : Nat) : Store :=
  update_epa store default (red_team_ids mt) (blue_team_ids mt)
    (mt.scoreRedFinal.getD 0) (mt.scoreBlueFinal.getD 0)
    (calculate_k_factor match_number) (calculate_margin_parameter match_number)

/-- The sort key of `main.py` line 186: the start timestamp, with absent
timestamps treated as the smallest possible value. -/
def timeKey (mt : MatchRec) : Nat :=
  mt.actualStartTime.getD 0

/-- Schedule Ordering (`main.py` line 186): Python's `sorted` is a stable
ascending sort by the timestamp key, modelled by insertion sort with the
non-strict key comparison (which is stable). -/
def sortMatches (ms : List MatchRec) : List MatchRec :=
  List.insertionSort (fun a b => timeKey a ≤ timeKey b) ms

/-- The `enumerate(..., start=1)` loop of `main.py` lines 186-187: feed the
ordered matches one at a time through `process_match` with 1-indexed match
numbers. -/
def processMatches (default : ℚ) : Store → Nat → List MatchRec → Store
  | store, _, [] => store
  | store, n, mt :: rest =>
      processMatches default (process_match store default mt n) (n + 1) rest

/-- One event's processing pipeline: stable-sort the matches by timestamp,
then update ratings match by match starting at match number 1. -/
def processEvent (store : Store) (default : ℚ) (ms : List MatchRec) : Store :=
  processMatches default store 1 (sortMatches ms)

/-- The result record of `predict_match_result` (`main.py` lines 136-143). -/
structure PredictionResult where
  predicted_red_score : ℚ
  predicted_blue_score : ℚ
  predicted_margin : ℚ
  red_win_prob : ℝ
  blue_win_prob : ℝ
  winner : String

/-- `calculate_win_probability` (`main.py` lines 96-107): the Elo-style
logistic on the rating difference, returning the red and blue win
probabilities. -/
noncomputable def calculate_win_probability (red_epa_total blue_epa_total : ℝ) :
    ℝ × ℝ :=
  let d := blue_epa_total - red_epa_total
  let blue_win_prob := 1 / (1 + (10 : ℝ) ^ (d / 400))
  let red_win_prob := 1 - blue_win_prob
  (red_win_prob, blue_win_prob)

/-- `predict_match_result` (`main.py` lines 109-143): read the four ratings
(seeding absent teams with the current default, without writing), sum per
alliance, and produce scores, margin, win probabilities and the winner
label. -/
noncomputable def predict_match_result (store : Store) (default : ℚ)
    (red_team1 red_team2 blue_team1 blue_team2 : Nat) : PredictionResult :=
  let red_epa1 := epa_get store default red_team1
  let red_epa2 := epa_get store default red_team2
  let blue_epa1 := epa_get store default blue_team1
  let blue_epa2 := epa_get store default blue_team2
  let total_red_epa := red_epa1 + red_epa2
  let total_blue_epa := blue_epa1 + blue_epa2
  let predicted_margin := total_red_epa - total_blue_epa
  let win_probabilities :=
    calculate_win_probability (total_red_epa : ℝ) (total_blue_epa : ℝ)
  { predicted_red_score := total_red_epa
    predicted_blue_score := total_blue_epa
    predicted_margin := predicted_margin
    red_win_prob := win_probabilities.1
    blue_win_prob := win_probabilities.2
    winner := if 0 < predicted_margin then "Red Alliance" else "Blue Alliance" }

/-- The strict timestamp order on match records is vacuously antisymmetric. -/
instance : IsAntisymm MatchRec (fun a b => timeKey a < timeKey b) :=
  ⟨fun _ _ h1 h2 => absurd (lt_trans h1 h2) (lt_irrefl _)⟩

/-- A store holding rating 80 for teams 1 to 4 and nothing else. -/
def store80 : Store :=
  fun t => if t = 1 ∨ t = 2 ∨ t = 3 ∨ t = 4 then some 80 else none

/-- A concrete match: red teams 1 and 2 score 100, blue teams 3 and 4 score 0,
timestamp 5. -/
def matchA : MatchRec :=
  { teams := [⟨"Red1", 1⟩, ⟨"Red2", 2⟩, ⟨"Blue1", 3⟩, ⟨"Blue2", 4⟩]
    scoreRedFinal := some 100
    scoreBlueFinal := some 0
    actualStartTime := some 5 }

/-- A concrete match on the same four teams with the same timestamp 5 as
`matchA` but the scores reversed: red 0, blue 100. -/
def matchB : MatchRec :=
  { teams := [⟨"Red1", 1⟩, ⟨"Red2", 2⟩, ⟨"Blue1", 3⟩, ⟨"Blue2", 4⟩]
    scoreRedFinal := some 0
    scoreBlueFinal := some 100
    actualStartTime := some 5 }

/-- `matchA` with its timestamp moved to 7, so that it no longer ties with
`matchB`. -/
def matchA7 : MatchRec :=
  { teams := [⟨"Red1", 1⟩, ⟨"Red2", 2⟩, ⟨"Blue1", 3⟩, ⟨"Blue2", 4⟩]
    scoreRedFinal := some 100
    scoreBlueFinal := some 0
    actualStartTime := some 7 }

/-- A concrete match with only three team slots, scores 100 and 80. -/
def match100_80 : MatchRec :=
  { teams := [⟨"Red1", 1⟩, ⟨"Red2", 2⟩, ⟨"Blue1", 3⟩]
    scoreRedFinal := some 100
    scoreBlueFinal := some 80
    actualStartTime := some 1 }

/-- A concrete match whose red final score is absent. -/
def matchNoRedScore : MatchRec :=
  { teams := [⟨"Red1", 1⟩, ⟨"Red2", 2⟩, ⟨"Blue1", 3⟩, ⟨"Blue2", 4⟩]
    scoreRedFinal := none
    scoreBlueFinal := some 40
    actualStartTime := some 2 }

/-- Folding `allianceStep` over an alliance never touches a team outside the
alliance. -/
lemma foldl_allianceStep_of_notMem (default c : ℚ) (teams : List Nat) (s : Store)
    (t : Nat) (ht : t ∉ teams) :
    (teams.foldl (allianceStep default c) s) t = s t := by
  induction teams generalizing s with
  | nil => rfl
  | cons a l ih =>
    have hta : t ≠ a := fun h => ht (h ▸ List.mem_cons_self a l)
    have htl : t ∉ l := fun h => ht (List.mem_cons_of_mem a h)
    simp only [List.foldl_cons, ih _ htl, allianceStep, if_neg hta]

/-- Folding `allianceStep` over a duplicate-free alliance writes, for each team
of the alliance, its pre-fold rating plus the common increment `c`. -/
lemma foldl_allianceStep_of_mem (default c : ℚ) (teams : List Nat) (s : Store)
    (t : Nat) (hnd : teams.Nodup) (ht : t ∈ teams) :
    (teams.foldl (allianceStep default c) s) t = some (epa_get s default t + c) := by
  induction teams generalizing s with
  | nil => cases ht
  | cons a l ih =>
    rcases List.nodup_cons.mp hnd with ⟨hal, hl⟩
    simp only [List.foldl_cons]
    by_cases hta : t = a
    · subst hta
      rw [foldl_allianceStep_of_notMem default c l _ t hal]
      simp [allianceStep]
    · have htl : t ∈ l := (List.mem_cons.mp ht).resolve_left hta
      rw [ih _ hl htl]
      simp [allianceStep, epa_get, hta]

end EPA

/-! Theorems for the claims. -/

namespace EPA

/-- C1: with red teams {1,2}, blue teams {3,4}, redScore = 100, blueScore = 50,
k = 0.5, m = 0 and all four teams at rating 80, the update writes 65 for teams
1 and 2 and 52.5 for teams 3 and 4. -/
theorem update_epa_example_C1 :
    update_epa store80 80 [1, 2] [3, 4] 100 50 0.5 0 1 = some 65 ∧
    update_epa store80 80 [1, 2] [3, 4] 100 50 0.5 0 2 = some 65 ∧
    update_epa store80 80 [1, 2] [3, 4] 100 50 0.5 0 3 = some 52.5 ∧
    update_epa store80 80 [1, 2] [3, 4] 100 50 0.5 0 4 = some 52.5 := by
  refine ⟨?_, ?_, ?_, ?_⟩ <;>
    norm_num [update_epa, updateAlliance, allianceStep, allianceTotal, epa_get,
      store80, List.foldl]

/-- C2: on non-empty, disjoint, duplicate-free alliances, the rating written for
every participating team is determined by the pre-call store alone: it equals
the team's pre-call rating plus the alliance increment computed from the
pre-call alliance totals, never from a teammate's already-updated rating. -/
theorem update_epa_snapshot_C2 (store : Store) (default rs bs k m : ℚ)
    (red blue : List Nat) (hrnd : red.Nodup) (hbnd : blue.Nodup)
    (hdisj : ∀ t, t ∈ red → t ∉ blue)
    (_hrne : red ≠ []) (_hbne : blue ≠ []) (t : Nat) :
    (t ∈ red →
      update_epa store default red blue rs bs k m t =
        some (epa_get store default t +
          (k / (1 + m)) *
            ((rs - allianceTotal store default red) -
              m * (bs - allianceTotal store default blue)) / (red.length : ℚ))) ∧
    (t ∈ blue →
      update_epa store default red blue rs bs k m t =
        some (epa_get store default t +
          (k / (1 + m)) *
            ((bs - allianceTotal store default blue) -
              m * (rs - allianceTotal store default red)) / (blue.length : ℚ))) := by
  constructor
  · intro htr
    have htb : t ∉ blue := hdisj t htr
    unfold update_epa updateAlliance
    rw [foldl_allianceStep_of_notMem _ _ _ _ t htb,
      foldl_allianceStep_of_mem _ _ _ _ t hrnd htr]
  · intro htb
    have htr : t ∉ red := fun h => hdisj t h htb
    unfold update_epa updateAlliance
    rw [foldl_allianceStep_of_mem _ _ _ _ t hbnd htb]
    unfold epa_get
    rw [foldl_allianceStep_of_notMem _ _ _ _ t htr]

/-- Witness for C2 at red = [1,2], blue = [3,4] on the concrete store `store80`:
team 1 (red) is written 80 + (0.5/1)·((100−160) − 0·(50−160))/2 = 65. -/
theorem update_epa_snapshot_C2_witness :
    update_epa store80 80 [1, 2] [3, 4] 100 50 0.5 0 1 =
      some (epa_get store80 80 1 +
        (0.5 / (1 + 0)) *
          ((100 - allianceTotal store80 80 [1, 2]) -
            0 * (50 - allianceTotal store80 80 [3, 4])) / (([1, 2] : List Nat).length : ℚ)) :=
  (update_epa_snapshot_C2 store80 80 100 50 0.5 0 [1, 2] [3, 4]
    (by decide) (by decide) (by decide)
    (by decide) (by decide) 1).1 (by decide)

/-- C7 (frame property): a team in neither alliance has exactly the same store
entry, absence included, after `update_epa` as before. -/
theorem update_epa_frame_C7 (store : Store) (default rs bs k m : ℚ)
    (red blue : List Nat) (t : Nat) (htr : t ∉ red) (htb : t ∉ blue) :
    update_epa store default red blue rs bs k m t = store t := by
  unfold update_epa updateAlliance
  rw [foldl_allianceStep_of_notMem _ _ _ _ t htb,
    foldl_allianceStep_of_notMem _ _ _ _ t htr]

/-- Witness for C7: team 9 plays in neither alliance of the example match, so
its store entry (absent in `store80`) is unchanged by the update. -/
theorem update_epa_frame_C7_witness :
    update_epa store80 80 [1, 2] [3, 4] 100 50 0.5 0 9 = store80 9 :=
  update_epa_frame_C7 store80 80 100 50 0.5 0 [1, 2] [3, 4] 9
    (by decide) (by decide)

/-- C4: the K-factor is 0.5 for match numbers up to 6, the linear ramp
0.5 − (n−6)/30 for 7 ≤ n ≤ 12, 0.3 beyond 12, and always lies in [0.3, 0.5]
for n ≥ 1. -/
theorem calculate_k_factor_C4 (n : Nat) :
    (n ≤ 6 → calculate_k_factor n = 0.5) ∧
    (7 ≤ n → n ≤ 12 → calculate_k_factor n = 0.5 - ((n : ℚ) - 6) / 30) ∧
    (12 < n → calculate_k_factor n = 0.3) ∧
    (1 ≤ n → 0.3 ≤ calculate_k_factor n ∧ calculate_k_factor n ≤ 0.5) := by
  refine ⟨?_, ?_, ?_, ?_⟩
  · intro h
    simp [calculate_k_factor, h]
  · intro h7 h12
    have h6 : ¬ n ≤ 6 := by omega
    simp only [calculate_k_factor, if_neg h6, if_pos h12]
    ring
  · intro h
    have h6 : ¬ n ≤ 6 := by omega
    have h12 : ¬ n ≤ 12 := by omega
    simp [calculate_k_factor, h6, h12]
  · intro _
    unfold calculate_k_factor
    split_ifs with h6 h12
    · norm_num
    · have hlo : (7 : ℚ) ≤ (n : ℚ) := by exact_mod_cast by omega
      have hhi : (n : ℚ) ≤ 12 := by exact_mod_cast h12
      constructor <;> [nlinarith; nlinarith]
    · norm_num

/-- Witness for C4 at n = 8: the ramp value 0.5 − 2/30 = 13/30 and the bounds
hold there. -/
theorem calculate_k_factor_C4_witness :
    calculate_k_factor 8 = 0.5 - ((8 : ℚ) - 6) / 30 ∧
    0.3 ≤ calculate_k_factor 8 ∧ calculate_k_factor 8 ≤ 0.5 :=
  ⟨(calculate_k_factor_C4 8).2.1 (by decide) (by decide),
    (calculate_k_factor_C4 8).2.2.2 (by decide)⟩

/-- C5: the margin parameter is 0 for match numbers up to 12, the linear ramp
(n−12)/24 for 13 ≤ n ≤ 36, 1 beyond 36; it is monotonically non-decreasing on
13 ≤ n ≤ 36, and m(12) = 0, m(36) = 1. -/
theorem calculate_margin_parameter_C5 :
    (∀ n : Nat, n ≤ 12 → calculate_margin_parameter n = 0) ∧
    (∀ n : Nat, 13 ≤ n → n ≤ 36 →
      calculate_margin_parameter n = ((n : ℚ) - 12) / 24) ∧
    (∀ n : Nat, 36 < n → calculate_margin_parameter n = 1) ∧
    (∀ n1 n2 : Nat, 13 ≤ n1 → n1 ≤ n2 → n2 ≤ 36 →
      calculate_margin_parameter n1 ≤ calculate_margin_parameter n2) ∧
    calculate_margin_parameter 12 = 0 ∧ calculate_margin_parameter 36 = 1 := by
  have hval : ∀ n : Nat, 13 ≤ n → n ≤ 36 →
      calculate_margin_parameter n = ((n : ℚ) - 12) / 24 := by
    intro n h13 h36
    have h12 : ¬ n ≤ 12 := by omega
    simp only [calculate_margin_parameter, if_neg h12, if_pos h36]
  refine ⟨?_, hval, ?_, ?_, ?_, ?_⟩
  · intro n h
    simp [calculate_margin_parameter, h]
  · intro n h
    have h12 : ¬ n ≤ 12 := by omega
    have h36 : ¬ n ≤ 36 := by omega
    simp [calculate_margin_parameter, h12, h36]
  · intro n1 n2 h13 hle h36
    rw [hval n1 h13 (le_trans hle h36), hval n2 (le_trans h13 hle) h36]
    have : (n1 : ℚ) ≤ (n2 : ℚ) := by exact_mod_cast hle
    linarith
  · simp [calculate_margin_parameter]
  · have := hval 36 (by decide) (by decide)
    rw [this]
    norm_num

/-- Witness for C5: the universally quantified conjuncts instantiated at
n = 5, n = 20, n = 40 and the monotonicity at 14 ≤ 30. -/
theorem calculate_margin_parameter_C5_witness :
    calculate_margin_parameter 5 = 0 ∧
    calculate_margin_parameter 20 = ((20 : ℚ) - 12) / 24 ∧
    calculate_margin_parameter 40 = 1 ∧
    calculate_margin_parameter 14 ≤ calculate_margin_parameter 30 :=
  ⟨calculate_margin_parameter_C5.1 5 (by decide),
    calculate_margin_parameter_C5.2.1 20 (by decide) (by decide),
    calculate_margin_parameter_C5.2.2.1 40 (by decide),
    calculate_margin_parameter_C5.2.2.2.1 14 30 (by decide) (by decide) (by decide)⟩

/-- C6: the Baseline Estimator returns the summed final scores of both
alliances divided by 4 slots per match whenever there is at least one match
(regardless of how many teams actually appear: `match100_80` has only three
team slots), and exactly 60 on the empty collection; on one match with scores
100 and 80 it returns 45. -/
theorem calculate_default_epa_C6 (ms : List MatchRec) :
    (ms = [] → calculate_default_epa ms = 60) ∧
    (ms ≠ [] → calculate_default_epa ms =
      (ms.map (fun mt => mt.scoreRedFinal.getD 0 + mt.scoreBlueFinal.getD 0)).sum /
        ((4 * ms.length : Nat) : ℚ)) ∧
    calculate_default_epa [] = 60 ∧
    calculate_default_epa [match100_80] = 45 := by
  refine ⟨?_, ?_, ?_, ?_⟩
  · intro h
    subst h
    norm_num [calculate_default_epa]
  · intro h
    have hpos : 0 < ms.length := List.length_pos.mpr h
    have h4 : 0 < 4 * ms.length := by omega
    simp only [calculate_default_epa, if_pos h4]
  · norm_num [calculate_default_epa]
  · norm_num [calculate_default_epa, match100_80]

/-- Witness for C6 at the one-match list: 45 = (100 + 80) / (4 · 1). -/
theorem calculate_default_epa_C6_witness :
    calculate_default_epa [match100_80] =
      ([match100_80].map
        (fun mt => mt.scoreRedFinal.getD 0 + mt.scoreBlueFinal.getD 0)).sum /
        ((4 * ([match100_80] : List MatchRec).length : Nat) : ℚ) :=
  (calculate_default_epa_C6 [match100_80]).2.1 (by simp)

/-- C9: a match record with an absent alliance final score is treated exactly
as if that score were 0, by both `process_match` and the Baseline Estimator. -/
theorem missing_scores_C9 (mt : MatchRec) (rest : List MatchRec) (store : Store)
    (default : ℚ) (n : Nat) :
    (mt.scoreRedFinal = none →
      process_match store default mt n =
        process_match store default { mt with scoreRedFinal := some 0 } n ∧
      calculate_default_epa (mt :: rest) =
        calculate_default_epa ({ mt with scoreRedFinal := some 0 } :: rest)) ∧
    (mt.scoreBlueFinal = none →
      process_match store default mt n =
        process_match store default { mt with scoreBlueFinal := some 0 } n ∧
      calculate_default_epa (mt :: rest) =
        calculate_default_epa ({ mt with scoreBlueFinal := some 0 } :: rest)) := by
  constructor <;> intro h <;> constructor <;>
    simp [process_match, red_team_ids, blue_team_ids, calculate_default_epa, h]

/-- Witness for C9: on the concrete match with no red score, `process_match`
with match number 1 on the empty store agrees with the same match patched to a
red score of 0. -/
theorem missing_scores_C9_witness :
    process_match emptyStore 80 matchNoRedScore 1 =
      process_match emptyStore 80 { matchNoRedScore with scoreRedFinal := some 0 } 1 :=
  ((missing_scores_C9 matchNoRedScore [] emptyStore 80 1).1 (by decide)).1

/-- C3: for every store and four team identifiers, `predict_match_result`
returns the summed ratings as predicted scores (absent teams read through the
default, and the store is not written: the function returns only a
`PredictionResult`), the margin redTotal − blueTotal, the logistic blue win
probability `1 / (1 + 10 ^ ((blueTotal − redTotal) / 400))`, the complementary
red win probability (so the two sum to 1), and the winner label Red Alliance
exactly when the margin is positive, Blue Alliance otherwise — a tie yields
Blue Alliance. -/
theorem predict_match_result_C3 (store : Store) (default : ℚ)
    (red_team1 red_team2 blue_team1 blue_team2 : Nat) :
    (predict_match_result store default red_team1 red_team2 blue_team1
        blue_team2).predicted_red_score =
      epa_get store default red_team1 + epa_get store default red_team2 ∧
    (predict_match_result store default red_team1 red_team2 blue_team1
        blue_team2).predicted_blue_score =
      epa_get store default blue_team1 + epa_get store default blue_team2 ∧
    (predict_match_result store default red_team1 red_team2 blue_team1
        blue_team2).predicted_margin =
      (epa_get store default red_team1 + epa_get store default red_team2) -
        (epa_get store default blue_team1 + epa_get store default blue_team2) ∧
    (predict_match_result store default red_team1 red_team2 blue_team1
        blue_team2).blue_win_prob =
      1 / (1 + (10 : ℝ) ^
        ((((epa_get store default blue_team1 + epa_get store default blue_team2) -
            (epa_get store default red_team1 + epa_get store default red_team2) :
            ℚ) : ℝ) / 400)) ∧
    (predict_match_result store default red_team1 red_team2 blue_team1
        blue_team2).red_win_prob =
      1 - (predict_match_result store default red_team1 red_team2 blue_team1
        blue_team2).blue_win_prob ∧
    (predict_match_result store default red_team1 red_team2 blue_team1
        blue_team2).red_win_prob +
      (predict_match_result store default red_team1 red_team2 blue_team1
        blue_team2).blue_win_prob = 1 ∧
    (0 < (predict_match_result store default red_team1 red_team2 blue_team1
        blue_team2).predicted_margin →
      (predict_match_result store default red_team1 red_team2 blue_team1
        blue_team2).winner = "Red Alliance") ∧
    ((predict_match_result store default red_team1 red_team2 blue_team1
        blue_team2).predicted_margin ≤ 0 →
      (predict_match_result store default red_team1 red_team2 blue_team1
        blue_team2).winner = "Blue Alliance") := by
  refine ⟨rfl, rfl, rfl, ?_, rfl, ?_, ?_, ?_⟩
  · simp only [predict_match_result, calculate_win_probability]
    push_cast
    ring_nf
  · simp only [predict_match_result, calculate_win_probability]
    ring
  · intro h
    simp only [predict_match_result] at h ⊢
    rw [if_pos h]
  · intro h
    simp only [predict_match_result] at h ⊢
    rw [if_neg (not_lt.mpr h)]

/-- Witness for C3 on the empty store with default 80: the margin is 0, which
is not positive, so the winner label is Blue Alliance. -/
theorem predict_match_result_C3_witness :
    (predict_match_result emptyStore 80 1 2 3 4).winner = "Blue Alliance" :=
  (predict_match_result_C3 emptyStore 80 1 2 3 4).2.2.2.2.2.2.2
    (by norm_num [predict_match_result, epa_get, emptyStore])

/-- C10: the initial module-level Default Rating is the constant 80 — a value
the specification never states — and with it every team absent from the store
reads as 80, both through the shared defaulting read `epa_get` used by
`predict_match_result` and in the rating written by `update_epa` for an
absent team. -/
theorem default_seed_C10 :
    DEFAULT_EPA = 80 ∧
    (∀ (store : Store) (t : Nat), store t = none →
      epa_get store DEFAULT_EPA t = 80) ∧
    (∀ (store : Store) (r1 r2 b1 b2 : Nat),
      (predict_match_result store DEFAULT_EPA r1 r2 b1 b2).predicted_red_score =
        epa_get store DEFAULT_EPA r1 + epa_get store DEFAULT_EPA r2) ∧
    (∀ (store : Store) (rs bs k m : ℚ) (red blue : List Nat) (t : Nat),
      red.Nodup → t ∈ red → t ∉ blue → store t = none →
      update_epa store DEFAULT_EPA red blue rs bs k m t =
        some (80 + (k / (1 + m)) *
          ((rs - allianceTotal store DEFAULT_EPA red) -
            m * (bs - allianceTotal store DEFAULT_EPA blue)) /
          (red.length : ℚ))) := by
  refine ⟨rfl, ?_, ?_, ?_⟩
  · intro store t h
    simp [epa_get, h, DEFAULT_EPA]
  · intro store r1 r2 b1 b2
    rfl
  · intro store rs bs k m red blue t hnd htr htb habs
    unfold update_epa updateAlliance
    rw [foldl_allianceStep_of_notMem _ _ _ _ t htb,
      foldl_allianceStep_of_mem _ _ _ _ t hnd htr]
    simp [epa_get, habs, DEFAULT_EPA]

/-- Witness for C10: team 1 is absent from the empty store, so it reads as 80,
and an update of red = [1] against blue = [2] writes 80 plus the increment. -/
theorem default_seed_C10_witness :
    epa_get emptyStore DEFAULT_EPA 1 = 80 ∧
    update_epa emptyStore DEFAULT_EPA [1] [2] 10 0 0.5 0 1 =
      some (80 + (0.5 / (1 + 0)) *
        ((10 - allianceTotal emptyStore DEFAULT_EPA [1]) -
          0 * (0 - allianceTotal emptyStore DEFAULT_EPA [2])) /
        (([1] : List Nat).length : ℚ)) :=
  ⟨default_seed_C10.2.1 emptyStore 1 rfl,
    default_seed_C10.2.2.2 emptyStore 10 0 0.5 0 [1] [2] 1
      (by decide) (by decide) (by decide) rfl⟩

/-- Counterexample to C8 as stated: `[matchA, matchB]` and `[matchB, matchA]`
are two orderings of the same two matches, both consistent with ascending
start timestamps (the timestamps tie at 5), yet the pipeline — stable sort,
parameter schedule, update engine — started from the same empty store gives
team 1 the final rating 32.5 under the first ordering and 45 under the second:
the stable sort preserves the differing input order of the tied matches, and
updates are order-dependent. -/
theorem processEvent_tie_order_C8_counterexample :
    List.Sorted (fun a b => timeKey a ≤ timeKey b) [matchA, matchB] ∧
    List.Sorted (fun a b => timeKey a ≤ timeKey b) [matchB, matchA] ∧
    List.Perm [matchA, matchB] [matchB, matchA] ∧
    processEvent emptyStore 80 [matchA, matchB] 1 ≠
      processEvent emptyStore 80 [matchB, matchA] 1 := by
  refine ⟨by decide, by decide, List.Perm.swap matchB matchA [], ?_⟩
  have h1 : sortMatches [matchA, matchB] = [matchA, matchB] := by decide
  have h2 : sortMatches [matchB, matchA] = [matchB, matchA] := by decide
  have hra : red_team_ids matchA = [1, 2] := by decide
  have hba : blue_team_ids matchA = [3, 4] := by decide
  have hrb : red_team_ids matchB = [1, 2] := by decide
  have hbb : blue_team_ids matchB = [3, 4] := by decide
  simp only [processEvent, h1, h2, processMatches, process_match, hra, hba, hrb, hbb]
  norm_num [matchA, matchB, calculate_k_factor, calculate_margin_parameter,
    update_epa, updateAlliance, allianceStep, allianceTotal, epa_get, emptyStore,
    List.foldl]

/-- C8 amended: when the event's start timestamps are pairwise distinct — both
orderings strictly ascending — any two input orderings of the same matches
induce the same processing sequence, so the pipeline yields identical final
ratings for every team from the same initial store.  (With tied timestamps
this fails: see the counterexample, where the stable sort preserves the two
different input orders of the tied matches.) -/
theorem processEvent_distinct_times_C8 (store : Store) (default : ℚ)
    (l1 l2 : List MatchRec) (hperm : l1.Perm l2)
    (h1 : List.Sorted (fun a b => timeKey a < timeKey b) l1)
    (h2 : List.Sorted (fun a b => timeKey a < timeKey b) l2) :
    processEvent store default l1 = processEvent store default l2 := by
  have heq : l1 = l2 := List.eq_of_perm_of_sorted hperm h1 h2
  rw [heq]

/-- Witness for the amended C8: two matches with distinct timestamps 1 and 7,
in the unique strictly ascending order. -/
theorem processEvent_distinct_times_C8_witness :
    processEvent emptyStore 80 [match100_80, matchA7] =
      processEvent emptyStore 80 [match100_80, matchA7] :=
  processEvent_distinct_times_C8 emptyStore 80 [match100_80, matchA7]
    [match100_80, matchA7] (List.Perm.refl _) (by decide) (by decide)

end EPA
